import Mathlib

/-!
Verification of the GitHub code-review pipeline: a shallow embedding of the
static analyzer (src/tools/static-analyzer.ts), the per-file review workflow
(src/workflows/code-review-workflow.ts), the webhook fan-out aggregation and
the Markdown report composer (the Hono webhook handler), together with
theorems settling the specification claims about them.
-/

namespace CodeReview

/-! ## Characters and JS regex primitives -/

/-- The single-quote character. -/
def squote : Char := Char.ofNat 39

/-- The double-quote character. -/
def dquote : Char := Char.ofNat 34

/-- Is the character one of the two quote characters of the character class
in the secret-detection regex. -/
def isQuoteChar (c : Char) : Bool := c == squote || c == dquote

/-- JavaScript regex whitespace class: the characters matched by the pattern
backslash-s in a non-unicode-mode regex. -/
def isJsSpace (c : Char) : Bool :=
  c == ' ' || c == Char.ofNat 9 || c == Char.ofNat 10 || c == Char.ofNat 11 ||
  c == Char.ofNat 12 || c == Char.ofNat 13 || c == Char.ofNat 0xa0 ||
  c == Char.ofNat 0x1680 || (0x2000 ≤ c.toNat && c.toNat ≤ 0x200a) ||
  c == Char.ofNat 0x2028 || c == Char.ofNat 0x2029 || c == Char.ofNat 0x202f ||
  c == Char.ofNat 0x205f || c == Char.ofNat 0x3000 || c == Char.ofNat 0xfeff

/-- ASCII-only lowercasing, the canonicalisation the case-insensitive flag of
a non-unicode-mode JS regex applies to ASCII pattern letters. -/
def lowerAscii (c : Char) : Char :=
  if 65 ≤ c.toNat && c.toNat ≤ 90 then Char.ofNat (c.toNat + 32) else c

/-- Match a literal (given pre-lowercased) case-insensitively at the head of
the input, returning the remaining input on success. -/
def matchLitCI : List Char → List Char → Option (List Char)
  | [], cs => some cs
  | _ :: _, [] => none
  | p :: ps, c :: cs => if lowerAscii c == p then matchLitCI ps cs else none

/-- Match a literal case-sensitively at the head of the input, returning the
remaining input on success. -/
def matchLit : List Char → List Char → Option (List Char)
  | [], cs => some cs
  | _ :: _, [] => none
  | p :: ps, c :: cs => if c == p then matchLit ps cs else none

/-- Does the predicate match at some position of the line: the existential
search that the JS `RegExp.test` performs over all start positions. -/
def existsPos (p : List Char → Bool) : List Char → Bool
  | [] => p []
  | c :: cs => p (c :: cs) || existsPos p cs

/-! ## The three static-analysis rules (static-analyzer.ts lines 78-124) -/

/-- Match of the regex `console\.(log|debug|info)` at the current position
(case-sensitive). -/
def matchConsoleAt (cs : List Char) : Bool :=
  match matchLit "console.".data cs with
  | some r =>
    (matchLit "log".data r).isSome || (matchLit "debug".data r).isSome ||
      (matchLit "info".data r).isSome
  | none => false

/-- Match of the tail `\s*=\s*['"][^'"]+['"]` of the secret regex, starting
right after one of the keyword alternatives has been consumed. -/
def matchSecretAfterKey (cs : List Char) : Bool :=
  match cs.dropWhile isJsSpace with
  | c :: cs2 =>
    if c == '=' then
      match cs2.dropWhile isJsSpace with
      | q :: rest =>
        if isQuoteChar q then
          match rest with
          | r :: _ => !isQuoteChar r && rest.any isQuoteChar
          | [] => false
        else false
      | [] => false
    else false
  | [] => false

/-- Match `key` (case-insensitively) then the tail of the secret regex. -/
def matchKeyThenTail (r : List Char) : Bool :=
  match matchLitCI "key".data r with
  | some rest => matchSecretAfterKey rest
  | none => false

/-- Match of the regex
`(password|api[_-]?key|secret|token)\s*=\s*['"][^'"]+['"]` (case-insensitive)
at the current position. -/
def matchSecretAt (cs : List Char) : Bool :=
  (match matchLitCI "password".data cs with
   | some r => matchSecretAfterKey r
   | none => false) ||
  (match matchLitCI "api".data cs with
   | some r =>
     matchKeyThenTail r ||
       (match r with
        | c :: r2 => (c == '_' || c == '-') && matchKeyThenTail r2
        | [] => false)
   | none => false) ||
  (match matchLitCI "secret".data cs with
   | some r => matchSecretAfterKey r
   | none => false) ||
  (match matchLitCI "token".data cs with
   | some r => matchSecretAfterKey r
   | none => false)

/-- Match of the regex `\/\/\s*TODO` (case-insensitive) at the current
position. -/
def matchTodoAt (cs : List Char) : Bool :=
  match matchLit "//".data cs with
  | some r => (matchLitCI "todo".data (r.dropWhile isJsSpace)).isSome
  | none => false

/-- Rule 1 trigger: `/console\.(log|debug|info)/.test(line)`. -/
def hasConsole (line : List Char) : Bool := existsPos matchConsoleAt line

/-- Rule 2 trigger:
`/(password|api[_-]?key|secret|token)\s*=\s*['"][^'"]+['"]/i.test(line)`. -/
def hasSecret (line : List Char) : Bool := existsPos matchSecretAt line

/-- Rule 3 trigger: `/\/\/\s*TODO/i.test(line)`. -/
def hasTodo (line : List Char) : Bool := existsPos matchTodoAt line

/-! ## The static analyzer -/

/-- Severity of a finding, the enum of the analyzer's output schema. -/
inductive Severity where
  | error
  | warning
  | info
deriving DecidableEq

/-- One issue produced by the static analyzer: line number (1-based),
severity, message and rule identifier. -/
structure Finding where
  line : Nat
  severity : Severity
  message : String
  rule : String
deriving DecidableEq

/-- The summary block of the analyzer's output. -/
structure Summary where
  total : Nat
  errors : Nat
  warnings : Nat
deriving DecidableEq

/-- The full output of the static analyzer. -/
structure StaticResult where
  issues : List Finding
  summary : Summary
deriving DecidableEq

/-- `code.split('\n')` of JavaScript on the character list of the code:
splits on every newline, keeping empty segments, and yields one (empty)
segment for empty input. -/
def splitOnNewline : List Char → List (List Char)
  | [] => [[]]
  | c :: cs =>
    if c == Char.ofNat 10 then [] :: splitOnNewline cs
    else
      match splitOnNewline cs with
      | l :: ls => (c :: l) :: ls
      | [] => [[c]]

/-- The findings the three rules push for one line, in the fixed source
order no-console, no-hardcoded-secrets, todo-comment; `idx` is the 0-based
line index, reported as `idx + 1`. -/
def lineFindings (idx : Nat) (line : List Char) : List Finding :=
  (if hasConsole line then
    [⟨idx + 1, Severity.warning, "Debug statement found", "no-console"⟩]
   else []) ++
  (if hasSecret line then
    [⟨idx + 1, Severity.error, "Hardcoded secret detected", "no-hardcoded-secrets"⟩]
   else []) ++
  (if hasTodo line then
    [⟨idx + 1, Severity.info, "TODO comment found", "todo-comment"⟩]
   else [])

/-- The `lines.forEach((line, idx) => ...)` scan: findings of each line are
appended after the findings of all earlier lines. -/
def scanLines (idx : Nat) : List (List Char) → List Finding
  | [] => []
  | l :: ls => lineFindings idx l ++ scanLines (idx + 1) ls

/-- `staticAnalyzerTool.execute`: split the code into lines, apply the three
rules per line, then tally errors and warnings (the `fileName` input is
accepted but unused by the analysis, as in the source). -/
def analyze (code fileName : String) : StaticResult :=
  let issues := scanLines 0 (splitOnNewline code.data)
  let errors := (issues.filter (fun i => i.severity == Severity.error)).length
  let warnings := (issues.filter (fun i => i.severity == Severity.warning)).length
  { issues := issues
    summary := { total := issues.length, errors := errors, warnings := warnings } }

/-! ## The per-file review workflow (code-review-workflow.ts) -/

/-- The per-file metrics of the generate-report step's output. -/
structure Metrics where
  staticIssues : Nat
  staticErrors : Nat
deriving DecidableEq

/-- Output of `staticAnalysisStep`: the original code and file name plus the
static-analysis result. -/
structure StaticStepOut where
  code : String
  fileName : String
  staticResult : StaticResult
deriving DecidableEq

/-- Output of `aiReviewStep`: file name, static result and the AI review
text. -/
structure AiStepOut where
  fileName : String
  staticResult : StaticResult
  aiReview : String
deriving DecidableEq

/-- Output of `generateReportStep`, which is also the workflow's output:
file name, the per-file Markdown report, and the metrics. Note it carries no
`staticResult` field. -/
structure WorkflowOutput where
  fileName : String
  report : String
  metrics : Metrics
deriving DecidableEq

/-- `staticAnalysisStep.execute`: run the analyzer and pass code and file
name through. -/
def staticAnalysisStepRun (code fileName : String) : StaticStepOut :=
  { code := code, fileName := fileName, staticResult := analyze code fileName }

/-- `response.text || 'No review generated'`: JavaScript falls back when the
text is absent or the empty string. -/
def orNoReview (t : Option String) : String :=
  match t with
  | some s => if s == "" then "No review generated" else s
  | none => "No review generated"

/-- `aiReviewStep.execute` with the generative-model call abstracted as a
function `ai` of the prompt ingredients, returning the response text (none
models an absent `response.text`). -/
def aiReviewStepRun (ai : String → String → StaticResult → Option String)
    (s : StaticStepOut) : AiStepOut :=
  { fileName := s.fileName
    staticResult := s.staticResult
    aiReview := orNoReview (ai s.code s.fileName s.staticResult) }

/-- Severity rendered in the per-file report, as the string values of the
JS enum. -/
def severityStr : Severity → String
  | Severity.error => "error"
  | Severity.warning => "warning"
  | Severity.info => "info"

/-- One issue line of the per-file report of `generateReportStep`. -/
def reportIssueLine (i : Finding) : String :=
  "**Line " ++ toString i.line ++ "** [" ++ severityStr i.severity ++ "]: " ++
    i.message ++ " (" ++ i.rule ++ ")"

/-- `generateReportStep.execute`: build the per-file Markdown report and the
metrics. Its output drops the `staticResult`: only fileName, report and
metrics remain. -/
def generateReportStepRun (a : AiStepOut) : WorkflowOutput :=
  { fileName := a.fileName
    report :=
      "# Code Review: " ++ a.fileName ++ "\n\n## 📊 Static Analysis\n- Total Issues: " ++
        toString a.staticResult.summary.total ++ "\n- Errors: " ++
        toString a.staticResult.summary.errors ++ "\n- Warnings: " ++
        toString a.staticResult.summary.warnings ++ "\n\n" ++
        String.intercalate "\n" (a.staticResult.issues.map reportIssueLine) ++
        "\n\n## 🤖 AI Review\n" ++ a.aiReview ++
        "\n\n---\n*Generated by Mastra Code Review*"
    metrics :=
      { staticIssues := a.staticResult.summary.total
        staticErrors := a.staticResult.summary.errors } }

/-- The composed workflow `code-review`: static analysis, then AI review,
then report generation. -/
def workflowRun (ai : String → String → StaticResult → Option String)
    (code fileName : String) : WorkflowOutput :=
  generateReportStepRun (aiReviewStepRun ai (staticAnalysisStepRun code fileName))

/-! ## Fan-out over scanned files (webhook handler, step 6) -/

/-- A repository file produced by the scanner: path, content and size. -/
structure SourceFile where
  path : String
  content : String
  size : Nat
deriving DecidableEq

/-- The per-file outcome the webhook's `Promise.all` fan-out collects: on
success the spread of the workflow output after `success`/`fileName`, on
failure the file path and the error message. -/
inductive FileReviewOutcome where
  | ok (fileName report : String) (metrics : Metrics)
  | fail (fileName error : String)
deriving DecidableEq

/-- `success` field of an outcome. -/
def FileReviewOutcome.isSuccess : FileReviewOutcome → Bool
  | .ok _ _ _ => true
  | .fail _ _ => false

/-- `fileName` field of an outcome. -/
def outcomeFileName : FileReviewOutcome → String
  | .ok fn _ _ => fn
  | .fail fn _ => fn

/-- `r.metrics?.staticIssues || 0`: 0 for a failed outcome. -/
def outcomeIssues : FileReviewOutcome → Nat
  | .ok _ _ m => m.staticIssues
  | .fail _ _ => 0

/-- `r.metrics?.staticErrors || 0`: 0 for a failed outcome (and the guard
`r.metrics?.staticErrors > 0` is false on a failed outcome). -/
def outcomeErrs : FileReviewOutcome → Nat
  | .ok _ _ m => m.staticErrors
  | .fail _ _ => 0

/-- One arm of the webhook's `Promise.all` map: run the per-file review
(`Except.error` models a thrown/failed workflow run). On success the handler
returns `{ success: true, fileName: file.path, ...output }` — the spread of
the workflow output comes after `fileName`, so the output's own `fileName`
overwrites `file.path`. On failure it returns
`{ success: false, fileName: file.path, error }`. -/
def reviewOutcome (rf : SourceFile → Except String WorkflowOutput)
    (file : SourceFile) : FileReviewOutcome :=
  match rf file with
  | Except.ok out => FileReviewOutcome.ok out.fileName out.report out.metrics
  | Except.error msg => FileReviewOutcome.fail file.path msg

/-- The fan-out over all scanned files: `Promise.all(scanResult.files.map ...)`
settles to the list of per-file outcomes in the original file order. -/
def aggregateOutcomes (rf : SourceFile → Except String WorkflowOutput)
    (files : List SourceFile) : List FileReviewOutcome :=
  files.map (reviewOutcome rf)

/-! ## Aggregation of review statistics (webhook handler, step 7) -/

/-- `results.filter((r) => r.success)`. -/
def successResults (results : List FileReviewOutcome) : List FileReviewOutcome :=
  results.filter FileReviewOutcome.isSuccess

/-- `successResults.reduce((sum, r) => sum + (r.metrics?.staticIssues || 0), 0)`. -/
def totalIssuesOf (results : List FileReviewOutcome) : Nat :=
  (successResults results).foldl (fun sum r => sum + outcomeIssues r) 0

/-- `successResults.reduce((sum, r) => sum + (r.metrics?.staticErrors || 0), 0)`. -/
def totalErrorsOf (results : List FileReviewOutcome) : Nat :=
  (successResults results).foldl (fun sum r => sum + outcomeErrs r) 0

/-- One entry of `criticalFiles`: file name and its error count. -/
structure CriticalFile where
  fileName : String
  errors : Nat
deriving DecidableEq

/-- `successResults.filter((r) => r.metrics?.staticErrors > 0)
.map((r) => ({ fileName: r.fileName, errors: r.metrics.staticErrors }))`. -/
def criticalFilesOf (results : List FileReviewOutcome) : List CriticalFile :=
  ((successResults results).filter (fun r => 0 < outcomeErrs r)).map
    (fun r => { fileName := outcomeFileName r, errors := outcomeErrs r })

/-! ## The Markdown report composer (generateReportMarkdown) -/

/-- One element of the `results` array handed to `generateReportMarkdown`.
The handler passes the success outcomes, which carry `fileName` and
`metrics` but no `staticResult` (the workflow output has none); `none`
models an absent property of the underlying JS object. -/
structure ReportEntry where
  fileName : String
  metrics : Option Metrics
  staticResult : Option StaticResult
deriving DecidableEq

/-- The argument object of `generateReportMarkdown`. -/
structure ReportData where
  repository : String
  branch : String
  eventType : String
  totalFiles : Nat
  totalIssues : Nat
  totalErrors : Nat
  criticalFiles : List CriticalFile
  results : List ReportEntry
deriving DecidableEq

/-- The view of a per-file outcome as an element of the `results` array of
`generateReportMarkdown`: a success outcome contributes its fileName and
metrics and has no `staticResult` property; a failed outcome would
contribute neither metrics nor staticResult. -/
def toReportEntry : FileReviewOutcome → ReportEntry
  | .ok fn _ m => { fileName := fn, metrics := some m, staticResult := none }
  | .fail fn _ => { fileName := fn, metrics := none, staticResult := none }

/-- Severity emoji of a detailed-issue line:
`error ? 🔴 : warning ? 🟡 : ℹ️`. -/
def severityEmoji (s : Severity) : String :=
  if s == Severity.error then "🔴"
  else if s == Severity.warning then "🟡"
  else "ℹ️"

/-- One rendered finding line of a per-file detail block. -/
def findingLine (issue : Finding) : String :=
  severityEmoji issue.severity ++ " **Line " ++ toString issue.line ++ "**: " ++
    issue.message ++ " (`" ++ issue.rule ++ "`)\n"

/-- The finding lines rendered inside one file's detail block: guarded by
`r.staticResult?.issues?.length > 0`, at most the first 5 issues. -/
def findingLinesOf (r : ReportEntry) : List String :=
  match r.staticResult with
  | some sr => if 0 < sr.issues.length then (sr.issues.take 5).map findingLine else []
  | none => []

/-- The omitted-findings note of one file's detail block, emitted when the
file has more than 5 findings. -/
def omissionNoteOf (r : ReportEntry) : String :=
  match r.staticResult with
  | some sr =>
    if 5 < sr.issues.length then
      "\n_... 还有 " ++ toString (sr.issues.length - 5) ++ " 个问题_\n"
    else ""
  | none => ""

/-- Template interpolation of `r.metrics.staticIssues` (JS renders the text
`undefined` when the property chain is absent). -/
def metricsIssuesStr (r : ReportEntry) : String :=
  match r.metrics with
  | some m => toString m.staticIssues
  | none => "undefined"

/-- Template interpolation of `r.metrics.staticErrors`. -/
def metricsErrorsStr (r : ReportEntry) : String :=
  match r.metrics with
  | some m => toString m.staticErrors
  | none => "undefined"

/-- One per-file detail block of the report. -/
def fileBlock (r : ReportEntry) : String :=
  "### " ++ r.fileName ++ "\n\n" ++
  "**问题数**: " ++ metricsIssuesStr r ++ " | **错误数**: " ++ metricsErrorsStr r ++ "\n\n" ++
  String.join (findingLinesOf r) ++ omissionNoteOf r ++ "\n"

/-- The filter `r.metrics?.staticIssues > 0` selecting files shown in the
detailed issue list. -/
def entryQualifies (r : ReportEntry) : Bool :=
  match r.metrics with
  | some m => 0 < m.staticIssues
  | none => false

/-- `results.filter((r) => r.metrics?.staticIssues > 0).slice(0, 10)`: the
first 10 qualifying files. -/
def topFiles (data : ReportData) : List ReportEntry :=
  (data.results.filter entryQualifies).take 10

/-- The note about files beyond the first 10 that contain issues. -/
def moreFilesNote (data : ReportData) : String :=
  if 10 < (data.results.filter entryQualifies).length then
    "\n_... 还有 " ++ toString ((data.results.filter entryQualifies).length - 10) ++
      " 个文件包含问题_\n\n"
  else ""

/-- The detailed-issues section: rendered when `totalIssues > 0`, otherwise
the congratulatory section. -/
def detailSection (data : ReportData) : String :=
  if 0 < data.totalIssues then
    "## 📋 详细问题列表\n\n" ++ String.join ((topFiles data).map fileBlock) ++
      moreFilesNote data
  else
    "## ✅ 太棒了！\n\n" ++ "没有发现任何问题，代码质量良好！\n\n"

/-- One bullet of the priority-fixes section. -/
def criticalBullet (f : CriticalFile) : String :=
  "- **" ++ f.fileName ++ "** - " ++ toString f.errors ++ " 个错误\n"

/-- The "files requiring priority fixes" section, rendered only when
`totalErrors > 0`. -/
def prioritySection (data : ReportData) : String :=
  if 0 < data.totalErrors then
    "## ⚠️ 需要优先修复的文件\n\n" ++
      String.join (data.criticalFiles.map criticalBullet) ++ "\n"
  else ""

/-- The title and metadata lines of the report, ending with the 时间 line
into which the clock reading is interpolated. -/
def reportHeader (data : ReportData) (now : String) : String :=
  "# 🤖 AI 代码审查报告\n\n" ++ "**仓库**: " ++ data.repository ++ "\n" ++
    "**分支**: " ++ data.branch ++ "\n" ++ "**事件**: " ++ data.eventType ++ "\n" ++
    "**时间**: " ++ now ++ "\n\n"

/-- Everything of the report before the interpolated timestamp. -/
def timestampPre (data : ReportData) : String :=
  "# 🤖 AI 代码审查报告\n\n" ++ "**仓库**: " ++ data.repository ++ "\n" ++
    "**分支**: " ++ data.branch ++ "\n" ++ "**事件**: " ++ data.eventType ++ "\n" ++
    "**时间**: "

/-- The summary table section. -/
def summarySection (data : ReportData) : String :=
  "## 📊 审查摘要\n\n" ++ "| 指标 | 数量 |\n" ++ "|------|------|\n" ++
    "| 扫描文件 | " ++ toString data.totalFiles ++ " |\n" ++
    "| 发现问题 | " ++ toString data.totalIssues ++ " |\n" ++
    "| 错误数量 | " ++ toString data.totalErrors ++ " |\n" ++
    "| 关键文件 | " ++ toString data.criticalFiles.length ++ " |\n\n"

/-- The fixed footer of the report. -/
def reportFooter : String :=
  "---\n\n" ++ "🤖 _此报告由 [Mastra AI 代码审查系统](https://github.com/mastra) 自动生成_\n"

/-- Everything of the report after the interpolated timestamp. -/
def timestampPost (data : ReportData) : String :=
  "\n\n" ++ summarySection data ++ prioritySection data ++ detailSection data ++
    reportFooter

/-- `generateReportMarkdown`, assembled section by section in the source's
append order. The source interpolates `new Date().toISOString()` into the
时间 line; `now` is the reading of that clock call, made an explicit input
so the composer's dependence on the environment clock is part of the
model. -/
def generateReportMarkdown (data : ReportData) (now : String) : String :=
  reportHeader data now ++ summarySection data ++ prioritySection data ++
    detailSection data ++ reportFooter

/-- Webhook handler step 8: build the argument of `generateReportMarkdown`
from the scan summary and the per-file outcomes (`results: successResults`). -/
def buildReportData (repository branch eventType : String) (totalFiles : Nat)
    (results : List FileReviewOutcome) : ReportData :=
  { repository := repository
    branch := branch
    eventType := eventType
    totalFiles := totalFiles
    totalIssues := totalIssuesOf results
    totalErrors := totalErrorsOf results
    criticalFiles := criticalFilesOf results
    results := (successResults results).map toReportEntry }

/-- The webhook's review-and-report path for a scanned repository, with the
generative-model call and the clock as explicit inputs: fan the workflow out
over the files, aggregate, and compose the Markdown report. -/
def reviewRepositoryReport (ai : String → String → StaticResult → Option String)
    (repository branch eventType : String) (files : List SourceFile)
    (now : String) : String :=
  generateReportMarkdown
    (buildReportData repository branch eventType files.length
      (aggregateOutcomes (fun f => Except.ok (workflowRun ai f.content f.path)) files))
    now

/-! ## Concrete fixtures for evaluated runs -/

/-- A stub generative-model call used for concrete evaluated runs. -/
def stubAi : String → String → StaticResult → Option String := fun _ _ _ => some "ok"

/-- A scan of a single file whose content hardcodes a secret. -/
def c1Files : List SourceFile := [⟨"app.ts", "password = \"x\"", 13⟩]

/-- The per-file outcomes of reviewing `c1Files` with the stub model, no file
throwing. -/
def c1Results : List FileReviewOutcome :=
  aggregateOutcomes (fun f => Except.ok (workflowRun stubAi f.content f.path)) c1Files

/-- The aggregated report data built from `c1Results`, as the webhook handler
builds it. -/
def c1Data : ReportData := buildReportData "octo/repo" "main" "push" c1Files.length c1Results

/-- A finding fixture. -/
def c5Finding : Finding := ⟨1, Severity.warning, "Debug statement found", "no-console"⟩

/-- A report entry carrying a static result with 7 findings. -/
def c5Entry : ReportEntry :=
  ⟨"a.ts", some ⟨7, 0⟩, some ⟨List.replicate 7 c5Finding, ⟨7, 0, 7⟩⟩⟩

/-- Report data with 12 qualifying files, no errors, `c5Entry` first. -/
def c5Data : ReportData :=
  ⟨"octo/repo", "main", "push", 12, 13, 0, [],
    c5Entry :: List.replicate 11 ⟨"b.ts", some ⟨1, 0⟩, none⟩⟩

/-! ## Helper lemmas -/

/-- A left fold accumulating `f` over a list equals the accumulator plus the
sum of the mapped list. -/
theorem foldl_add_eq_sum (f : α → Nat) :
    ∀ (l : List α) (a : Nat), l.foldl (fun s r => s + f r) a = a + (l.map f).sum := by
  intro l
  induction l with
  | nil => intro a; simp
  | cons x xs ih => intro a; simp [ih, Nat.add_assoc]

/-- Error findings and warning findings of a list are disjoint, so their
counts sum to at most the list length. -/
theorem errors_add_warnings_le (l : List Finding) :
    (l.filter (fun i => i.severity == Severity.error)).length +
      (l.filter (fun i => i.severity == Severity.warning)).length ≤ l.length := by
  induction l with
  | nil => simp
  | cons x xs ih =>
    rcases hs : x.severity <;> simp [List.filter_cons, hs] <;> omega

/-- Every finding the three rules push for line index `i` reports line
`i + 1`. -/
theorem lineFindings_line_eq {f : Finding} {i : Nat} {l : List Char}
    (h : f ∈ lineFindings i l) : f.line = i + 1 := by
  simp only [lineFindings, List.mem_append] at h
  rcases h with (h | h) | h <;> (split at h <;> simp_all)

/-- A single line contributes at most three findings. -/
theorem lineFindings_length_le (i : Nat) (l : List Char) :
    (lineFindings i l).length ≤ 3 := by
  unfold lineFindings
  split <;> split <;> split <;> simp

/-- Every finding of the scan starting at index `k` has a line number
between `k + 1` and `k + lines.length`. -/
theorem scanLines_line_bounds :
    ∀ (lines : List (List Char)) (k : Nat) (f : Finding),
      f ∈ scanLines k lines → k + 1 ≤ f.line ∧ f.line ≤ k + lines.length := by
  intro lines
  induction lines with
  | nil => intro k f h; simp [scanLines] at h
  | cons l ls ih =>
    intro k f h
    rw [scanLines] at h
    rcases List.mem_append.mp h with h1 | h1
    · have := lineFindings_line_eq h1
      simp only [List.length_cons]
      omega
    · have := ih (k + 1) f h1
      simp only [List.length_cons]
      omega

/-- The scan produces at most three findings per scanned line. -/
theorem scanLines_length_le :
    ∀ (lines : List (List Char)) (k : Nat),
      (scanLines k lines).length ≤ 3 * lines.length := by
  intro lines
  induction lines with
  | nil => intro k; simp [scanLines]
  | cons l ls ih =>
    intro k
    rw [scanLines, List.length_append]
    have h1 := lineFindings_length_le k l
    have h2 := ih (k + 1)
    simp only [List.length_cons]
    omega

/-- At most three findings of a scan share any one line number. -/
theorem scanLines_count_le :
    ∀ (lines : List (List Char)) (k n : Nat),
      ((scanLines k lines).filter (fun f => f.line == n)).length ≤ 3 := by
  intro lines
  induction lines with
  | nil => intro k n; simp [scanLines]
  | cons l ls ih =>
    intro k n
    rw [scanLines, List.filter_append, List.length_append]
    by_cases hn : n = k + 1
    · have htail : (scanLines (k + 1) ls).filter (fun f => f.line == n) = [] := by
        rw [List.filter_eq_nil_iff]
        intro a ha
        have := (scanLines_line_bounds ls (k + 1) a ha).1
        simp only [beq_iff_eq]
        omega
      have hhead : ((lineFindings k l).filter (fun f => f.line == n)).length ≤ 3 :=
        le_trans (List.length_filter_le _ _) (lineFindings_length_le k l)
      rw [htail]
      simpa using hhead
    · have hhead : (lineFindings k l).filter (fun f => f.line == n) = [] := by
        rw [List.filter_eq_nil_iff]
        intro a ha
        have := lineFindings_line_eq ha
        simp only [beq_iff_eq]
        omega
      rw [hhead]
      simpa using ih (k + 1) n

/-! ## Claims about the static analyzer -/

/-- Claim C6: for every code string and fileName, the analyzer's
`summary.total` equals the length of `issues`, `summary.errors` counts the
issues of severity error, `summary.warnings` counts those of severity
warning, and therefore `errors + warnings ≤ total`. -/
theorem C6_summary_counts :
    ∀ (code fileName : String),
      (analyze code fileName).summary.total = (analyze code fileName).issues.length ∧
      (analyze code fileName).summary.errors =
        ((analyze code fileName).issues.filter
          (fun i => i.severity == Severity.error)).length ∧
      (analyze code fileName).summary.warnings =
        ((analyze code fileName).issues.filter
          (fun i => i.severity == Severity.warning)).length ∧
      (analyze code fileName).summary.errors + (analyze code fileName).summary.warnings ≤
        (analyze code fileName).summary.total := by
  intro code fileName
  refine ⟨rfl, rfl, rfl, ?_⟩
  exact errors_add_warnings_le (scanLines 0 (splitOnNewline code.data))

/-- Claim C8: on the empty code string the analyzer returns no issues and
the all-zero summary, for every fileName. -/
theorem C8_empty_code :
    ∀ (fileName : String),
      analyze "" fileName = { issues := [], summary := { total := 0, errors := 0, warnings := 0 } } := by
  intro fileName
  rfl

/-- Claim C9: every finding's line number lies between 1 and the number of
lines of the split code, at most 3 findings share any one line number, and
the total number of findings is at most 3 times the number of lines. -/
theorem C9_line_bounds :
    ∀ (code fileName : String),
      (∀ f, f ∈ (analyze code fileName).issues →
        1 ≤ f.line ∧ f.line ≤ (splitOnNewline code.data).length) ∧
      (∀ n : Nat,
        (((analyze code fileName).issues.filter (fun f => f.line == n)).length ≤ 3)) ∧
      (analyze code fileName).issues.length ≤ 3 * (splitOnNewline code.data).length := by
  intro code fileName
  refine ⟨?_, ?_, ?_⟩
  · intro f hf
    have := scanLines_line_bounds (splitOnNewline code.data) 0 f hf
    omega
  · intro n
    exact scanLines_count_le (splitOnNewline code.data) 0 n
  · exact scanLines_length_le (splitOnNewline code.data) 0

/-- Witness for C9 at the one-line input `console.log`: its single finding
has line number 1, within the one line of the split. -/
theorem C9_line_bounds_witness :
    1 ≤ (1 : Nat) ∧ (1 : Nat) ≤ (splitOnNewline ("console.log").data).length :=
  (C9_line_bounds "console.log" "a.ts").1
    ⟨1, Severity.warning, "Debug statement found", "no-console"⟩ (by decide)

/-- Claim C10: the no-hardcoded-secrets rule is context-insensitive: an
assignment pattern inside a line comment, or with the keyword a substring of
a longer identifier, still yields an error finding with rule
no-hardcoded-secrets. -/
theorem C10_context_insensitive :
    (analyze "// password = \"x\"" "a.ts").issues.map
        (fun i => (i.line, i.severity, i.rule)) =
      [(1, Severity.error, "no-hardcoded-secrets")] ∧
    (analyze "mytoken = \"y\"" "b.ts").issues.map
        (fun i => (i.line, i.severity, i.rule)) =
      [(1, Severity.error, "no-hardcoded-secrets")] := by
  constructor <;> decide

/-- Counterexample to claim C7 as stated: the line
`console.log(token = "x") // TODO` matches both the debug-print pattern and
the hardcoded-secret pattern, yet the analyzer produces three findings for
it (the TODO rule also fires), not exactly two. -/
theorem C7_counterexample :
    hasConsole ("console.log(token = \"x\") // TODO").data = true ∧
    hasSecret ("console.log(token = \"x\") // TODO").data = true ∧
    (analyze "console.log(token = \"x\") // TODO" "a.ts").issues.map (fun i => i.rule) =
      ["no-console", "no-hardcoded-secrets", "todo-comment"] ∧
    ¬ ((analyze "console.log(token = \"x\") // TODO" "a.ts").issues.length = 2) := by
  refine ⟨by decide, by decide, by decide, by decide⟩

/-- Claim C7 (amended): a line matching both the debug-print and the
hardcoded-secret patterns, and not the TODO pattern, contributes exactly the
two findings no-console (warning) then no-hardcoded-secrets (error), in that
order; in general each line contributes at most three findings in the fixed
rule order, and the analyzer's issues are the concatenation of the per-line
contributions in line order. -/
theorem C7_rule_order :
    ∀ (idx : Nat) (line : List Char),
      (hasConsole line = true → hasSecret line = true → hasTodo line = false →
        lineFindings idx line =
          [⟨idx + 1, Severity.warning, "Debug statement found", "no-console"⟩,
           ⟨idx + 1, Severity.error, "Hardcoded secret detected", "no-hardcoded-secrets"⟩]) ∧
      (lineFindings idx line).length ≤ 3 ∧
      (∀ code fileName : String,
        (analyze code fileName).issues = scanLines 0 (splitOnNewline code.data)) := by
  intro idx line
  refine ⟨?_, lineFindings_length_le idx line, fun code fileName => rfl⟩
  intro h1 h2 h3
  simp [lineFindings, h1, h2, h3]

/-- Witness for C7: the line `console.log(token = "x")` matches the
debug-print and secret patterns but not the TODO pattern, and yields exactly
the two findings in rule order. -/
theorem C7_rule_order_witness :
    lineFindings 0 ("console.log(token = \"x\")").data =
      [⟨1, Severity.warning, "Debug statement found", "no-console"⟩,
       ⟨1, Severity.error, "Hardcoded secret detected", "no-hardcoded-secrets"⟩] :=
  (C7_rule_order 0 ("console.log(token = \"x\")").data).1 (by decide) (by decide) (by decide)

/-! ## Claims about the fan-out and the aggregation -/

/-- Counterexample to claim C3 as stated: the success branch of the fan-out
spreads the workflow output after setting `fileName: file.path`, so the
output's own `fileName` wins. A review function whose output reports
`b.ts` for the input file `a.ts` yields an outcome whose fileName is
`b.ts`, not the fileName of the file at that index. -/
theorem C3_counterexample :
    aggregateOutcomes (fun _ => Except.ok ⟨"b.ts", "rep", ⟨0, 0⟩⟩) [⟨"a.ts", "", 0⟩] =
      [FileReviewOutcome.ok "b.ts" "rep" ⟨0, 0⟩] ∧
    ¬ (outcomeFileName (FileReviewOutcome.ok "b.ts" "rep" ⟨0, 0⟩) = "a.ts") := by
  refine ⟨by decide, by decide⟩

/-- Claim C3 (amended): the fan-out yields exactly one outcome per input
file, the outcome at each index is determined solely by the review function
and the file at the same index (so completion order and failures of other
files cannot affect it), a throw is recorded as a failed outcome carrying
that file's path and the error message, and whenever the review function
echoes its input file name — as the repository's workflow does — the outcome
at each index carries the fileName of the file at the same index. -/
theorem C3_fanout :
    ∀ (rf : SourceFile → Except String WorkflowOutput) (files : List SourceFile),
      (aggregateOutcomes rf files).length = files.length ∧
      (∀ i : Nat, (aggregateOutcomes rf files)[i]? = (files[i]?).map (reviewOutcome rf)) ∧
      (∀ file msg, rf file = Except.error msg →
        reviewOutcome rf file = FileReviewOutcome.fail file.path msg) ∧
      (∀ (rf2 : SourceFile → Except String WorkflowOutput) (i : Nat) (file : SourceFile),
        files[i]? = some file → rf file = rf2 file →
        (aggregateOutcomes rf files)[i]? = (aggregateOutcomes rf2 files)[i]?) ∧
      ((∀ f out, rf f = Except.ok out → out.fileName = f.path) →
        ∀ (i : Nat) (file : SourceFile), files[i]? = some file →
          ((aggregateOutcomes rf files)[i]?).map outcomeFileName = some file.path) := by
  intro rf files
  refine ⟨List.length_map _ _, ?_, ?_, ?_, ?_⟩
  · intro i
    simp [aggregateOutcomes]
  · intro file msg h
    simp [reviewOutcome, h]
  · intro rf2 i file hget hagree
    simp [aggregateOutcomes, hget, reviewOutcome, hagree]
  · intro hecho i file hget
    simp only [aggregateOutcomes, List.getElem?_map, hget, Option.map_some']
    rcases hrf : rf file with msg | out
    · simp [reviewOutcome, hrf, outcomeFileName]
    · simp [reviewOutcome, hrf, outcomeFileName, hecho file out hrf]

/-- Witness for C3: with a review function that echoes the file's path, the
single outcome of reviewing `a.ts` carries fileName `a.ts`. -/
theorem C3_fanout_witness :
    ((aggregateOutcomes (fun f => Except.ok ⟨f.path, "rep", ⟨0, 0⟩⟩)
        [⟨"a.ts", "code", 1⟩])[0]?).map outcomeFileName = some "a.ts" :=
  (C3_fanout (fun f => Except.ok ⟨f.path, "rep", ⟨0, 0⟩⟩) [⟨"a.ts", "code", 1⟩]).2.2.2.2
    (fun f out h => by injection h with h2; rw [← h2])
    0 ⟨"a.ts", "code", 1⟩ rfl

/-- Claim C4: `totalIssues` and `totalErrors` sum the per-file metrics over
the successful outcomes only, failed outcomes contribute zero and are
excluded from `criticalFiles` (which is the order-preserving subsequence of
successful outcomes with positive staticErrors, rendered as fileName plus
error count), while failed outcomes do remain among the collected per-file
outcomes. -/
theorem C4_aggregation :
    ∀ (results : List FileReviewOutcome),
      totalIssuesOf results =
        ((results.filter FileReviewOutcome.isSuccess).map outcomeIssues).sum ∧
      totalErrorsOf results =
        ((results.filter FileReviewOutcome.isSuccess).map outcomeErrs).sum ∧
      criticalFilesOf results =
        (results.filter (fun r => decide (0 < outcomeErrs r) && r.isSuccess)).map
          (fun r => { fileName := outcomeFileName r, errors := outcomeErrs r }) ∧
      (∀ fn e, outcomeIssues (FileReviewOutcome.fail fn e) = 0 ∧
        outcomeErrs (FileReviewOutcome.fail fn e) = 0) ∧
      (∀ fn e, criticalFilesOf (FileReviewOutcome.fail fn e :: results) =
        criticalFilesOf results) ∧
      (∀ (rf : SourceFile → Except String WorkflowOutput) (files : List SourceFile)
          (file : SourceFile) (msg : String),
        file ∈ files → rf file = Except.error msg →
        FileReviewOutcome.fail file.path msg ∈ aggregateOutcomes rf files) := by
  intro results
  refine ⟨?_, ?_, ?_, ?_, ?_, ?_⟩
  · simp [totalIssuesOf, successResults, foldl_add_eq_sum]
  · simp [totalErrorsOf, successResults, foldl_add_eq_sum]
  · simp [criticalFilesOf, successResults, List.filter_filter]
  · intro fn e
    exact ⟨rfl, rfl⟩
  · intro fn e
    simp [criticalFilesOf, successResults, List.filter_cons, FileReviewOutcome.isSuccess]
  · intro rf files file msg hmem hrf
    have h : reviewOutcome rf file = FileReviewOutcome.fail file.path msg := by
      simp [reviewOutcome, hrf]
    exact h ▸ List.mem_map_of_mem (reviewOutcome rf) hmem

/-- Witness for C4: a file whose review throws is recorded as a failed
outcome, present among the collected per-file outcomes. -/
theorem C4_aggregation_witness :
    FileReviewOutcome.fail "a.ts" "boom" ∈
      aggregateOutcomes (fun _ => Except.error "boom") [⟨"a.ts", "x", 1⟩] :=
  (C4_aggregation []).2.2.2.2.2 (fun _ => Except.error "boom") [⟨"a.ts", "x", 1⟩]
    ⟨"a.ts", "x", 1⟩ "boom" (by decide) rfl

/-! ## Claims about the report composer -/

/-- Counterexample to claim C2 as stated: the composer interpolates
`new Date().toISOString()` itself, so two calls on the same aggregated data
made at different clock readings return different Markdown strings. -/
theorem C2_counterexample :
    ¬ (generateReportMarkdown ⟨"octo/repo", "main", "push", 0, 0, 0, [], []⟩
        "2024-01-01T00:00:00.000Z" =
      generateReportMarkdown ⟨"octo/repo", "main", "push", 0, 0, 0, [], []⟩
        "2024-01-02T00:00:00.000Z") := by
  decide

/-- Claim C2 (amended): the composer is deterministic only up to the
environment clock it reads itself: its output is the fixed text determined
by the aggregated data with the clock reading spliced in as the timestamp,
so calls with equal clock readings agree and the clock reading is the sole
source of nondeterminism. -/
theorem C2_timestamp_splice :
    ∀ (data : ReportData) (now : String),
      generateReportMarkdown data now = timestampPre data ++ now ++ timestampPost data := by
  intro data now
  simp only [generateReportMarkdown, reportHeader, timestampPre, timestampPost,
    String.append_assoc]

/-- Claim C5: the composed report has no priority-fixes section when
`totalErrors = 0`, at most 10 per-file detail blocks, at most 5 finding
lines within any one file's block, and states the omitted counts in notes
when more than 5 findings or more than 10 qualifying files exist. -/
theorem C5_compose_bounds :
    ∀ (data : ReportData) (now : String),
      (data.totalErrors = 0 →
        prioritySection data = "" ∧
        generateReportMarkdown data now =
          reportHeader data now ++ summarySection data ++ detailSection data ++
            reportFooter) ∧
      (topFiles data).length ≤ 10 ∧
      (∀ r : ReportEntry, (findingLinesOf r).length ≤ 5) ∧
      (∀ (r : ReportEntry) (sr : StaticResult), r.staticResult = some sr →
        5 < sr.issues.length →
        omissionNoteOf r =
          "\n_... 还有 " ++ toString (sr.issues.length - 5) ++ " 个问题_\n") ∧
      (10 < (data.results.filter entryQualifies).length →
        moreFilesNote data =
          "\n_... 还有 " ++ toString ((data.results.filter entryQualifies).length - 10) ++
            " 个文件包含问题_\n\n") := by
  intro data now
  refine ⟨?_, ?_, ?_, ?_, ?_⟩
  · intro h
    have hp : prioritySection data = "" := by simp [prioritySection, h]
    refine ⟨hp, ?_⟩
    rw [generateReportMarkdown, hp, String.append_empty]
  · rw [topFiles, List.length_take]
    omega
  · intro r
    rcases h : r.staticResult with _ | sr
    · simp [findingLinesOf, h]
    · simp only [findingLinesOf, h]
      split
      · rw [List.length_map, List.length_take]
        omega
      · simp
  · intro r sr h1 h2
    simp [omissionNoteOf, h1, h2]
  · intro h
    simp [moreFilesNote, h]

/-- Witness for C5 on report data with zero total errors, a file with 7
findings and 12 qualifying files: no priority section, at most 10 blocks,
at most 5 finding lines, and both omission notes state the excess counts. -/
theorem C5_compose_bounds_witness :
    prioritySection c5Data = "" ∧
    (topFiles c5Data).length ≤ 10 ∧
    (findingLinesOf c5Entry).length ≤ 5 ∧
    omissionNoteOf c5Entry = "\n_... 还有 2 个问题_\n" ∧
    moreFilesNote c5Data = "\n_... 还有 2 个文件包含问题_\n\n" := by
  have h := C5_compose_bounds c5Data "2024-01-01T00:00:00.000Z"
  exact ⟨(h.1 rfl).1, h.2.1, h.2.2.1 c5Entry,
    h.2.2.2.1 c5Entry ⟨List.replicate 7 c5Finding, ⟨7, 0, 7⟩⟩ rfl (by decide),
    h.2.2.2.2 (by decide)⟩

/-- Claim C1 is the spec's intent but the code drops the data it needs: the
workflow's report step outputs only fileName, report and metrics, so the
outcomes handed to `generateReportMarkdown` carry no `staticResult`, and the
composer's finding-line branch never fires. Reviewing a single file whose
static analysis yields one error finding produces a report whose detail
block has the issue and error counts but zero finding lines (no severity
emoji, no omission note), even though `totalIssues = 1 > 0`. -/
theorem C1_report_omits_findings :
    (analyze "password = \"x\"" "app.ts").issues =
      [⟨1, Severity.error, "Hardcoded secret detected", "no-hardcoded-secrets"⟩] ∧
    c1Data.totalIssues = 1 ∧
    topFiles c1Data = [⟨"app.ts", some ⟨1, 1⟩, none⟩] ∧
    findingLinesOf ⟨"app.ts", some ⟨1, 1⟩, none⟩ = [] ∧
    omissionNoteOf ⟨"app.ts", some ⟨1, 1⟩, none⟩ = "" ∧
    fileBlock ⟨"app.ts", some ⟨1, 1⟩, none⟩ =
      "### app.ts\n\n**问题数**: 1 | **错误数**: 1\n\n\n" := by
  refine ⟨by decide, by decide, by decide, by decide, by decide, by decide⟩

end CodeReview
